import Mathlib

/-!
Verification of the `RealtimeCG` shadow-volume renderer
(`src/07-ShadowVolumes/scene.cpp`, headers in `src/06-Shading/shaders.h`
and the application file `src/unnamed/part_000`).

The development shallowly embeds the CPU-side scene logic:

* `float` arithmetic is modelled over `ℝ` (`sinf`/`cosf` become
  `Real.sin`/`Real.cos`); `getRandom(lo, hi)` calls are modelled as
  consuming successive values of an abstract stream `rng : ℕ → ℝ`,
  one value per call, in the exact order the source performs the calls;
* the OpenGL calls issued by `Scene::Draw` are embedded as a trace of
  `GLCmd` events, in source order; `Scene::DrawBackground` and
  `Scene::DrawObjects` are kept as atomic submission events (their bodies
  touch only shader programs, texture/buffer bindings and blending, none
  of the pipeline state tracked by `GLState` below);
* the scene singleton's fields become the record `SceneState`, and the
  `static float t` animation clock of `Scene::Update` is modelled as the
  `animTime` field.
-/

noncomputable section

/-- 3-component float vector (`glm::vec3`), modelled over `ℝ`. -/
structure Vec3 where
  x : ℝ
  y : ℝ
  z : ℝ


/-- 4-component float vector (`glm::vec4`), modelled over `ℝ`. -/
structure Vec4 where
  x : ℝ
  y : ℝ
  z : ℝ
  w : ℝ


/-- Componentwise vector addition (`glm::vec3 + glm::vec3`). -/
def vadd (a b : Vec3) : Vec3 := ⟨a.x + b.x, a.y + b.y, a.z + b.z⟩

/-- Componentwise vector subtraction (`glm::vec3 - glm::vec3`). -/
def vsub (a b : Vec3) : Vec3 := ⟨a.x - b.x, a.y - b.y, a.z - b.z⟩

/-- Componentwise vector product (`glm::vec3 * glm::vec3`). -/
def vmul (a b : Vec3) : Vec3 := ⟨a.x * b.x, a.y * b.y, a.z * b.z⟩

/-- `glm::vec3(0.0f)`, the world origin. -/
def origin3 : Vec3 := ⟨0, 0, 0⟩

/-- `glm::dot` for 3-vectors. -/
def dot3 (a b : Vec3) : ℝ := a.x * b.x + a.y * b.y + a.z * b.z

/-- `glm::cross` for 3-vectors. -/
def cross3 (a b : Vec3) : Vec3 :=
  ⟨a.y * b.z - a.z * b.y, a.z * b.x - a.x * b.z, a.x * b.y - a.y * b.x⟩

/-- Euclidean length of a 3-vector (`glm::length`). -/
def norm3 (v : Vec3) : ℝ := Real.sqrt (v.x * v.x + v.y * v.y + v.z * v.z)

/-- `glm::normalize` for 3-vectors: the vector divided by its length. -/
def normalize3 (v : Vec3) : Vec3 := ⟨v.x / norm3 v, v.y / norm3 v, v.z / norm3 v⟩

/-- `glm::radians`: degrees to radians. -/
def radians (deg : ℝ) : ℝ := deg * Real.pi / 180

/-- Scaling factor for lights movement curve (scene.cpp line 17):
`glm::vec3(13.0f, 2.0f, 13.0f)`. -/
def scale : Vec3 := ⟨13, 2, 13⟩

/-- Offset for lights movement curve (scene.cpp line 19):
`glm::vec3(0.0f, 3.0f, 0.0f)`. -/
def offset : Vec3 := ⟨0, 3, 0⟩

/-- Lissajous curve position calculation (scene.cpp lines 22-25):
`glm::vec3(sinf(p.x * t), cosf(p.y * t), sinf(p.z * t) * cosf(p.w * t))`. -/
def lissajous (p : Vec4) (t : ℝ) : Vec3 :=
  ⟨Real.sin (p.x * t), Real.cos (p.y * t), Real.sin (p.z * t) * Real.cos (p.w * t)⟩

/-- `Scene::PointLight` (scene.h): position, color (rgb intensity +
ambient-intensity scalar in `w`), and movement trajectory parameters. -/
structure PointLight where
  position : Vec3
  color : Vec4
  movement : Vec4

/-- `Scene::SpotLight` (scene.h): the `PointLight` fields plus a cone
direction and cosine cutoffs. -/
structure SpotLight where
  position : Vec3
  color : Vec4
  movement : Vec4
  direction : Vec3
  cutOff : ℝ
  outerCutOff : ℝ

/-- Placeholder point light used as the `List.getD` default when indexing
(the C++ `operator[]` has no default; all theorems index in bounds). -/
def dPL : PointLight := ⟨origin3, ⟨0, 0, 0, 0⟩, ⟨0, 0, 0, 0⟩⟩

/-- Placeholder spot light used as the `List.getD` default when indexing. -/
def dSL : SpotLight := ⟨origin3, ⟨0, 0, 0, 0⟩, ⟨0, 0, 0, 0⟩, origin3, 0, 0⟩

/-- The mutable fields of the `Scene` singleton (scene.h lines 640-670),
plus `animTime`, the `static float t` animation clock local to
`Scene::Update` (scene.cpp line 207).  GPU mesh objects are represented by
their handles only. -/
structure SceneState where
  numCubes : ℕ
  numPointLights : ℕ
  numSpotLights : ℕ
  cubePositions : List Vec3
  pointLights : List PointLight
  spotLights : List SpotLight
  vao : ℕ
  quad : Option ℕ
  cube : Option ℕ
  cubeAdjacency : Option ℕ
  instancingBuffer : ℕ
  transformBlockUBO : ℕ
  loadedTextures : List ℕ
  animTime : ℝ

/-- The scene before `Scene::Init`: the in-class initializers of scene.h
(`_numCubes = 10`, `_vao = 0`, null mesh pointers, zero buffer handles,
`_loadedTextures = {0}` with `NumTextures = 8` entries) together with the
animation clock at its `static` initial value `0`.  `_numPointLights` and
`_numSpotLights` have no initializer in the header; they are modelled
as `0`. -/
def SceneState.initial : SceneState :=
  { numCubes := 10
    numPointLights := 0
    numSpotLights := 0
    cubePositions := []
    pointLights := []
    spotLights := []
    vao := 0
    quad := none
    cube := none
    cubeAdjacency := none
    instancingBuffer := 0
    transformBlockUBO := 0
    loadedTextures := [0, 0, 0, 0, 0, 0, 0, 0]
    animTime := 0 }

/-- The GL object names and mesh handles produced by the allocation calls
inside `Scene::Init` (`glGenVertexArrays`, `glGenBuffers`,
`Geometry::Create*`, `Textures::Create*`/`LoadTexture`).  OpenGL
guarantees a name returned by `glGen*` is nonzero; theorems that need
this take it as a hypothesis on `vao`. -/
structure GLHandles where
  vao : ℕ
  instancingBuffer : ℕ
  transformBlockUBO : ℕ
  quad : ℕ
  cube : ℕ
  cubeAdjacency : ℕ
  textures : List ℕ

/-- Ambient intensity for the lights (scene.cpp line 137):
`1e-3f / numPointLights`.  The divisor is the raw light count with no
zero-guard; in IEEE float `numPointLights = 0` yields `+inf` (division by
zero), which the ℝ model records as a zero denominator. -/
def ambientIntensity (numPointLights : ℕ) : ℝ := 1e-3 / (numPointLights : ℝ)

/-- Cube positions built by `Scene::Init` (scene.cpp lines 120-132): the
first cube is fixed at `(0, 0.5, 0)`; cubes `i = 1 .. numCubes-1` draw
`x ∈ [-5,5]`, `y ∈ [1,5]`, `z ∈ [-5,5]` — three stream values each,
starting at stream index 0. -/
def cubePositionsInit (numCubes : ℕ) (rng : ℕ → ℝ) : List Vec3 :=
  ⟨0, 0.5, 0⟩ ::
    (List.range (numCubes - 1)).map (fun j =>
      ⟨rng (3 * j), rng (3 * j + 1), rng (3 * j + 2)⟩)

/-- Stream index of the first `getRandom` call made by the point-light
loop: the cube loop before it consumes `3 * (numCubes - 1)` values. -/
def pointRngBase (numCubes : ℕ) : ℕ := 3 * (numCubes - 1)

/-- Position & color of the first light (scene.cpp lines 141-142): the
fixed hero point light at `(-3, 3, 0)` with color `(10, 10, 10)`, ambient
term `ambientIntensity`, and movement parameters `(0, 1, 0, 0)`. -/
def heroLight (numPointLights : ℕ) : PointLight :=
  ⟨⟨-3, 3, 0⟩, ⟨10, 10, 10, ambientIntensity numPointLights⟩, ⟨0, 1, 0, 0⟩⟩

/-- Point lights built by `Scene::Init` (scene.cpp lines 140-159): the
hero light is pushed unconditionally, then lights `i = 1 .. n-1` each draw
`x y z w` (movement, from `[-2,2]`) and `r g b` (color, from `[0,5]`) —
seven stream values per light — and are placed at
`offset + lissajous(p, 0) * scale`. -/
def pointLightsInit (numPointLights : ℕ) (rng : ℕ → ℝ) (base : ℕ) : List PointLight :=
  heroLight numPointLights ::
    (List.range (numPointLights - 1)).map (fun j =>
      let p : Vec4 := ⟨rng (base + 7 * j), rng (base + 7 * j + 1),
                       rng (base + 7 * j + 2), rng (base + 7 * j + 3)⟩
      let c : Vec4 := ⟨rng (base + 7 * j + 4), rng (base + 7 * j + 5),
                       rng (base + 7 * j + 6), ambientIntensity numPointLights⟩
      ⟨vadd offset (vmul (lissajous p 0) scale), c, p⟩)

/-- Stream index of the first `getRandom` call made by the spot-light
loop: cubes consume `3 * (numCubes - 1)` values and point lights consume
`7 * (numPointLights - 1)` values before it. -/
def spotRngBase (numCubes numPointLights : ℕ) : ℕ :=
  3 * (numCubes - 1) + 7 * (numPointLights - 1)

/-- Spot lights built by `Scene::Init` (scene.cpp lines 162-186): lights
`i = 0 .. n-1` each draw `x y z w` (movement, `[-2,2]`), `r g b` (color,
`[0,5]`) and `s t u` (raw direction, `[-2,2]`) — ten stream values per
light.  The direction field stores the raw sample `(s, t, u)` with no
normalization; cutoffs are `radians(12.5°)` / `radians(17.5°)`. -/
def spotLightsInit (numPointLights numSpotLights : ℕ) (rng : ℕ → ℝ) (base : ℕ) :
    List SpotLight :=
  (List.range numSpotLights).map (fun j =>
    let p : Vec4 := ⟨rng (base + 10 * j), rng (base + 10 * j + 1),
                     rng (base + 10 * j + 2), rng (base + 10 * j + 3)⟩
    let c : Vec4 := ⟨rng (base + 10 * j + 4), rng (base + 10 * j + 5),
                     rng (base + 10 * j + 6), ambientIntensity numPointLights⟩
    let dir : Vec3 := ⟨rng (base + 10 * j + 7), rng (base + 10 * j + 8),
                       rng (base + 10 * j + 9)⟩
    ⟨vadd offset (vmul (lissajous p 0) scale), c, p, dir,
      radians 12.5, radians 17.5⟩)

/-- `Scene::Init` (scene.cpp lines 60-202).  The guard at lines 63-64
(`if (_vao) return;`) returns without any effect when the scene is
already initialized.  Otherwise the counts are stored, GL objects are
allocated (their names supplied by `handles`), and the cube positions,
point lights and spot lights are generated from the random stream in
source order.  The `Scene::Update` animation clock is a `static` local
untouched by `Init`. -/
def Scene.init (numCubes numPointLights numSpotLights : ℕ) (rng : ℕ → ℝ)
    (handles : GLHandles) (s : SceneState) : SceneState :=
  if s.vao ≠ 0 then s
  else
    { numCubes := numCubes
      numPointLights := numPointLights
      numSpotLights := numSpotLights
      cubePositions := cubePositionsInit numCubes rng
      pointLights := pointLightsInit numPointLights rng (pointRngBase numCubes)
      spotLights := spotLightsInit numPointLights numSpotLights rng
        (spotRngBase numCubes numPointLights)
      vao := handles.vao
      quad := some handles.quad
      cube := some handles.cube
      cubeAdjacency := some handles.cubeAdjacency
      instancingBuffer := handles.instancingBuffer
      transformBlockUBO := handles.transformBlockUBO
      loadedTextures := handles.textures
      animTime := s.animTime }

/-- In-place update of a list where element `i` (counting from `k`) is
replaced by `f (k + i) a` — the model of the index-based `for` loops that
assign through `operator[]`. -/
def updateEach (f : ℕ → α → α) : ℕ → List α → List α
  | _, [] => []
  | k, a :: as => f k a :: updateEach f (k + 1) as

/-- `Scene::Update` body for `_pointLights` (scene.cpp lines 209-216):
element 0 is written unconditionally with the special offset
`glm::vec3(-3, 2, 0) + lissajous(movement, t)` (no `scale` factor);
elements `1 ≤ i < numPointLights` are written with
`offset + lissajous(movement, t) * scale`; further elements are
untouched. -/
def updatePointLights (numPointLights : ℕ) (t : ℝ) (ls : List PointLight) :
    List PointLight :=
  updateEach (fun i l =>
    if i = 0 then
      { l with position := vadd ⟨-3, 2, 0⟩ (lissajous l.movement t) }
    else if i < numPointLights then
      { l with position := vadd offset (vmul (lissajous l.movement t) scale) }
    else l) 0 ls

/-- `Scene::Update` body for `_spotLights` (scene.cpp lines 218-225):
elements `i < numSpotLights` get
`position = offset + lissajous(movement, t) * scale` and then
`direction = normalize(origin - position)` from the freshly written
position. -/
def updateSpotLights (numSpotLights : ℕ) (t : ℝ) (ls : List SpotLight) :
    List SpotLight :=
  updateEach (fun i l =>
    if i < numSpotLights then
      let pos := vadd offset (vmul (lissajous l.movement t) scale)
      { l with position := pos, direction := normalize3 (vsub origin3 pos) }
    else l) 0 ls

/-- `Scene::Update` (scene.cpp lines 204-229): all light positions are
computed from the current value of the `static` animation clock, and only
afterwards is the clock advanced by `t += dt`. -/
def Scene.update (dt : ℝ) (s : SceneState) : SceneState :=
  { s with
    pointLights := updatePointLights s.numPointLights s.animTime s.pointLights
    spotLights := updateSpotLights s.numSpotLights s.animTime s.spotLights
    animTime := s.animTime + dt }

/-- A sequence of `Scene::Update` calls with the given per-call `dt`
values, first to last. -/
def runUpdates (dts : List ℝ) (s : SceneState) : SceneState :=
  dts.foldl (fun s dt => Scene.update dt s) s

/-- `RenderMode` (scene.h lines 528-539). -/
structure RenderMode where
  vsync : Bool
  wireframe : Bool
  tonemapping : Bool
  msaaLevel : ℕ

/-- The `Scene::RenderPass` bitmask values (scene.h lines 546-557). -/
def RenderPass.DepthPass : ℕ := 0x0001

/-- `Scene::RenderPass::ShadowVolume`. -/
def RenderPass.ShadowVolume : ℕ := 0x0002

/-- `Scene::RenderPass::DirectLight`. -/
def RenderPass.DirectLight : ℕ := 0x0004

/-- `Scene::RenderPass::AmbientLight`. -/
def RenderPass.AmbientLight : ℕ := 0x0008

/-- `Scene::RenderPass::ShadowMap`. -/
def RenderPass.ShadowMap : ℕ := 0x0010

/-- `Scene::RenderPass::LightPass = DirectLight | AmbientLight`. -/
def RenderPass.LightPass : ℕ := 0x000c

/-- `Scene::RenderPass::ShadowPass = ShadowMap | ShadowVolume`. -/
def RenderPass.ShadowPass : ℕ := 0x0012

/-- The shader programs `Scene::Draw` submits with (indices into the
`shaderProgram` array; the 07-ShadowVolumes shader header declaring this
enum is not among the provided sources, so the constructors mirror the
names used at the call sites in scene.cpp). -/
inductive ShaderProg where
  | defaultProg
  | instancing
  | pointRendering
  | defaultDepthPass
  | instancingDepthPass
  | lightSourceDepthPass
  | instancedShadowVolume
deriving DecidableEq

/-- OpenGL capabilities toggled by `Scene::Draw` via
`glEnable`/`glDisable`. -/
inductive Cap where
  | cullFaceCap
  | depthTest
  | depthClamp
  | stencilTest
  | blend
  | multisample
deriving DecidableEq

/-- Depth comparison functions passed to `glDepthFunc`. -/
inductive DepthFn where
  | lequal
  | less
deriving DecidableEq

/-- Polygon face selectors (`GL_FRONT` / `GL_BACK`). -/
inductive Face where
  | front
  | back
deriving DecidableEq

/-- Stencil operations used by the shadow-volume pass. -/
inductive StencilOp where
  | keep
  | incrWrap
  | decrWrap
  | zero
deriving DecidableEq

/-- Stencil comparison functions used by `Scene::Draw`. -/
inductive StencilFn where
  | always
  | equal
  | never
deriving DecidableEq

/-- Fill modes passed to `glPolygonMode`. -/
inductive PolyMode where
  | line
  | fill
deriving DecidableEq

/-- Blend equations (`glBlendEquation`). -/
inductive BlendEq where
  | funcAdd
deriving DecidableEq

/-- Blend factors (`glBlendFunc`). -/
inductive BlendFactor where
  | one
deriving DecidableEq

/-- One GL call (or helper invocation) issued by `Scene::Draw`, in
program order.  `drawBackground`/`drawObjects` are the calls to
`Scene::DrawBackground`/`Scene::DrawObjects`, kept atomic and carrying
the shader program, the `RenderPass` bitmask and the light data passed
to them (their bodies touch no pipeline state tracked by `GLState`). -/
inductive GLCmd where
  | updateTransformBlock
  | updateInstanceData
  | enable (c : Cap)
  | disable (c : Cap)
  | cullFace (f : Face)
  | polygonMode (m : PolyMode)
  | depthFunc (f : DepthFn)
  | depthMask (b : Bool)
  | colorMask (b : Bool)
  | clearColor
  | clear (color depth stencil : Bool)
  | blendEquation (e : BlendEq)
  | blendFunc (src dst : BlendFactor)
  | stencilFunc (f : StencilFn) (ref mask : ℕ)
  | stencilOp (sfail zfail zpass : StencilOp)
  | stencilOpSeparate (face : Face) (sfail zfail zpass : StencilOp)
  | drawBackground (prog : ShaderProg) (renderPass : ℕ)
      (lightPosition : Vec3) (lightColor : Vec4)
  | drawObjects (prog : ShaderProg) (renderPass : ℕ)
      (lightPosition : Vec3) (lightColor : Vec4)

/-- The `depthPass` lambda of `Scene::Draw` (scene.cpp lines 504-511). -/
def depthPassCmds : List GLCmd :=
  [.drawBackground .defaultDepthPass RenderPass.DepthPass origin3 ⟨0, 0, 0, 0⟩,
   .drawObjects .instancingDepthPass RenderPass.DepthPass origin3 ⟨0, 0, 0, 0⟩]

/-- The `lightPass` lambda of `Scene::Draw` (scene.cpp lines 541-561):
additive blending, stencil test `EQUAL 0` with no stencil write, draw
background + objects, then disable blending. -/
def lightPassCmds (renderPass : ℕ) (lightPosition : Vec3) (lightColor : Vec4) :
    List GLCmd :=
  [.enable .blend, .blendEquation .funcAdd, .blendFunc .one .one,
   .stencilFunc .equal 0x00 0xff,
   .stencilOp .keep .keep .keep,
   .drawBackground .defaultProg renderPass lightPosition lightColor,
   .drawObjects .instancing renderPass lightPosition lightColor,
   .disable .blend]

/-- The `shadowVolumePass` lambda of `Scene::Draw` (scene.cpp lines
566-594): disable face culling, stencil always passes, then the
depth-fail (`carmackReverse`) or depth-pass stencil operations
(`glStencilOpSeparate` argument order: face, stencil fail, depth fail,
depth pass), the instanced adjacency draw, and re-enable culling. -/
def shadowVolumePassCmds (carmackReverse : Bool) (lightPosition : Vec3)
    (lightColor : Vec4) : List GLCmd :=
  [.disable .cullFaceCap,
   .stencilFunc .always 0x00 0xff] ++
  (if carmackReverse then
    [.stencilOpSeparate .back .keep .incrWrap .keep,
     .stencilOpSeparate .front .keep .decrWrap .keep]
   else
    [.stencilOpSeparate .back .keep .keep .decrWrap,
     .stencilOpSeparate .front .keep .keep .incrWrap]) ++
  [.drawObjects .instancedShadowVolume RenderPass.ShadowVolume lightPosition lightColor,
   .enable .cullFaceCap]

/-- The commands of `Scene::Draw` before the light loops (scene.cpp lines
499 and 596-630): transform-block upload, instance-data upload, MSAA
toggle, backface culling, wireframe toggle, depth test/clamp with
`LEQUAL` and depth write, clear color+depth, disable color write, run
the depth pre-pass, then disable depth write. -/
def drawSetupCmds (rm : RenderMode) : List GLCmd :=
  [.updateTransformBlock,
   .updateInstanceData,
   if rm.msaaLevel > 1 then .enable .multisample else .disable .multisample,
   .enable .cullFaceCap, .cullFace .back,
   .polygonMode (if rm.wireframe then .line else .fill),
   .enable .depthTest, .enable .depthClamp,
   .depthFunc .lequal, .depthMask true,
   .clearColor, .clear true true false,
   .colorMask false] ++
  depthPassCmds ++
  [.depthMask false]

/-- One iteration of the point-light loop of `Scene::Draw` (scene.cpp
lines 633-650): clear stencil, enable stencil test, disable color write,
shadow-volume pass, enable color write, direct-light pass, disable
stencil test, ambient-light pass. -/
def pointLightBlock (carmackReverse : Bool) (lightPosition : Vec3)
    (lightColor : Vec4) : List GLCmd :=
  [.clear false false true, .enable .stencilTest,
   .colorMask false] ++
  shadowVolumePassCmds carmackReverse lightPosition lightColor ++
  [.colorMask true] ++
  lightPassCmds RenderPass.DirectLight lightPosition lightColor ++
  [.disable .stencilTest] ++
  lightPassCmds RenderPass.AmbientLight lightPosition lightColor

/-- One iteration of the spot-light loop of `Scene::Draw` (scene.cpp
lines 657-674): clear stencil, disable stencil test, (the shadow-map
depth capture and direct-light pass are commented out in the source,)
disable stencil test again, ambient-light pass only. -/
def spotLightBlock (lightPosition : Vec3) (lightColor : Vec4) : List GLCmd :=
  [.clear false false true, .disable .stencilTest,
   .disable .stencilTest] ++
  lightPassCmds RenderPass.AmbientLight lightPosition lightColor

/-- The full command trace of one `Scene::Draw` invocation (scene.cpp
lines 497-678): setup and depth prime, the point-light loop, the
spot-light loop, and the final re-enabling of color write. -/
def Scene.drawCmds (s : SceneState) (rm : RenderMode) (carmackReverse : Bool) :
    List GLCmd :=
  drawSetupCmds rm ++
  (List.range s.numPointLights).flatMap (fun i =>
    pointLightBlock carmackReverse (s.pointLights.getD i dPL).position
      (s.pointLights.getD i dPL).color) ++
  (List.range s.numSpotLights).flatMap (fun i =>
    spotLightBlock (s.spotLights.getD i dSL).position
      (s.spotLights.getD i dSL).color) ++
  [.colorMask true]

/-- The OpenGL pipeline state that `Scene::Draw` manipulates: write
masks, depth function, enabled capabilities, the stencil function
triple (function, reference, mask) and the per-face stencil operation
triples (stencil fail, depth fail, depth pass). -/
structure GLState where
  colorMaskOn : Bool
  depthMaskOn : Bool
  depthFuncV : DepthFn
  cullFaceOn : Bool
  depthTestOn : Bool
  depthClampOn : Bool
  stencilTestOn : Bool
  blendOn : Bool
  multisampleOn : Bool
  stencilFn : StencilFn × ℕ × ℕ
  stencilOpFront : StencilOp × StencilOp × StencilOp
  stencilOpBack : StencilOp × StencilOp × StencilOp
deriving DecidableEq

/-- The effect of one GL call on the tracked pipeline state.  Draw
submissions, buffer updates and clears leave it unchanged;
`glStencilOp` sets both faces, `glStencilOpSeparate` one face. -/
def GLState.step (st : GLState) : GLCmd → GLState
  | .enable c =>
    match c with
    | .cullFaceCap => { st with cullFaceOn := true }
    | .depthTest => { st with depthTestOn := true }
    | .depthClamp => { st with depthClampOn := true }
    | .stencilTest => { st with stencilTestOn := true }
    | .blend => { st with blendOn := true }
    | .multisample => { st with multisampleOn := true }
  | .disable c =>
    match c with
    | .cullFaceCap => { st with cullFaceOn := false }
    | .depthTest => { st with depthTestOn := false }
    | .depthClamp => { st with depthClampOn := false }
    | .stencilTest => { st with stencilTestOn := false }
    | .blend => { st with blendOn := false }
    | .multisample => { st with multisampleOn := false }
  | .colorMask b => { st with colorMaskOn := b }
  | .depthMask b => { st with depthMaskOn := b }
  | .depthFunc f => { st with depthFuncV := f }
  | .stencilFunc f r m => { st with stencilFn := (f, r, m) }
  | .stencilOp a b c =>
    { st with stencilOpFront := (a, b, c), stencilOpBack := (a, b, c) }
  | .stencilOpSeparate face a b c =>
    match face with
    | .front => { st with stencilOpFront := (a, b, c) }
    | .back => { st with stencilOpBack := (a, b, c) }
  | _ => st

/-- Run a command list from a state (left fold of `GLState.step`). -/
def applyCmds (st : GLState) (cs : List GLCmd) : GLState :=
  cs.foldl GLState.step st

/-- `runCheck ok st cs` holds when the per-command predicate `ok`
accepts every command of `cs` in the pipeline state current when that
command is issued. -/
def runCheck (ok : GLState → GLCmd → Bool) : GLState → List GLCmd → Bool
  | _, [] => true
  | st, c :: cs => ok st c && runCheck ok (st.step c) cs

/-- Pass-level summary tags extracted from the command trace. -/
inductive PassTag where
  | depthPrime
  | stencilClear
  | shadowVolume
  | directLight
  | ambientLight
deriving DecidableEq

/-- The pass a draw submission belongs to, read off its `RenderPass`
bitmask; non-draw commands yield nothing.  Each pass of `Scene::Draw`
contains exactly one `DrawObjects` call, so only `drawObjects` events
are tagged. -/
def cmdPassTag : GLCmd → Option PassTag
  | .drawObjects _ rp _ _ =>
    if rp = RenderPass.DepthPass then some .depthPrime
    else if rp = RenderPass.ShadowVolume then some .shadowVolume
    else if rp = RenderPass.DirectLight then some .directLight
    else if rp = RenderPass.AmbientLight then some .ambientLight
    else none
  | _ => none

/-- Like `cmdPassTag`, but also tags `glClear(GL_STENCIL_BUFFER_BIT)`
commands, so that the position of the stencil clears relative to the
passes is visible. -/
def cmdTag : GLCmd → Option PassTag
  | .clear _ _ stencil => if stencil then some .stencilClear else none
  | c => cmdPassTag c

/-- The sequence of passes a command trace executes. -/
def passKinds (cs : List GLCmd) : List PassTag := cs.filterMap cmdPassTag

/-- The sequence of passes and stencil clears of a command trace. -/
def tagKinds (cs : List GLCmd) : List PassTag := cs.filterMap cmdTag

/-- Per-draw pipeline-state conditions for the depth-prime ordering
claim: a depth-pass draw runs with color write disabled, depth write
enabled and depth function `LEQUAL`; a shadow-volume draw runs with
color write disabled; every draw after the depth prime (any draw whose
pass is not `DepthPass`) runs with depth write disabled. -/
def depthPrimeOK (st : GLState) : GLCmd → Bool
  | .drawBackground _ rp _ _ =>
    if rp = RenderPass.DepthPass then
      !st.colorMaskOn && st.depthMaskOn && (st.depthFuncV = DepthFn.lequal)
    else !st.depthMaskOn
  | .drawObjects _ rp _ _ =>
    (if rp = RenderPass.DepthPass then
      !st.colorMaskOn && st.depthMaskOn && (st.depthFuncV = DepthFn.lequal)
     else !st.depthMaskOn) &&
    (if rp = RenderPass.ShadowVolume then !st.colorMaskOn else true)
  | _ => true

/-- Per-draw pipeline-state conditions for the shadow-volume stencil
claim: at the shadow-volume draw, face culling is disabled, the stencil
test always passes (`GL_ALWAYS`, ref 0, mask 0xff), and the per-face
stencil operation triples (stencil fail, depth fail, depth pass) are
those of the depth-fail algorithm when `carmackReverse` and of the
depth-pass algorithm otherwise; at every other draw submission face
culling is (re-)enabled. -/
def shadowStencilOK (carmackReverse : Bool) (st : GLState) : GLCmd → Bool
  | .drawObjects _ rp _ _ =>
    if rp = RenderPass.ShadowVolume then
      !st.cullFaceOn &&
      (st.stencilFn = (StencilFn.always, 0x00, 0xff)) &&
      (if carmackReverse then
        (st.stencilOpBack = (StencilOp.keep, StencilOp.incrWrap, StencilOp.keep)) &&
        (st.stencilOpFront = (StencilOp.keep, StencilOp.decrWrap, StencilOp.keep))
       else
        (st.stencilOpBack = (StencilOp.keep, StencilOp.keep, StencilOp.decrWrap)) &&
        (st.stencilOpFront = (StencilOp.keep, StencilOp.keep, StencilOp.incrWrap)))
    else st.cullFaceOn
  | .drawBackground _ _ _ _ => st.cullFaceOn
  | _ => true

/-- `Scene::MAX_INSTANCES` (scene.h line 567): the capacity of the
CPU-side `instanceData` vector and of the `instanceBuffer[1024]` array
declared by the instancing vertex shader (shaders.h). -/
def MAX_INSTANCES : ℕ := 1024

/-- `sizeof(Scene::InstanceData)`: one `glm::mat3x4` transformation,
12 floats of 4 bytes. -/
def instanceDataSize : ℕ := 48

/-- Capacity in bytes of the GPU instance buffer, sized from the
shader's `InstanceData instanceBuffer[1024]` uniform block. -/
def instanceBufferCapacityBytes : ℕ := MAX_INSTANCES * instanceDataSize

/-- The indices of the CPU-side `instanceData` vector written by the
cube loop of `Scene::UpdateInstanceData` (scene.cpp lines 259-267):
`instanceData[i]` for `i = 0 .. numCubes-1`, while the vector is
`static std::vector<InstanceData> instanceData(MAX_INSTANCES)` of fixed
size `MAX_INSTANCES`. -/
def instanceWrites (numCubes : ℕ) : List ℕ := List.range numCubes

/-- The number of bytes `Scene::UpdateInstanceData` copies into the
mapped GPU instance buffer (scene.cpp line 274):
`memcpy(ptr, ..., _numCubes * sizeof(InstanceData))`. -/
def instanceCopyBytes (numCubes : ℕ) : ℕ := numCubes * instanceDataSize

/-- 4×4 float matrix (`glm::mat4x4`), entry `(row, col)`; glm's
`M[c][r]` is entry `(r, c)` here. -/
abbrev Mat4 := Matrix (Fin 4) (Fin 4) ℝ

/-- 3-column, 4-row float matrix (`glm::mat3x4`), entry `(row, col)`. -/
abbrev Mat3x4 := Matrix (Fin 4) (Fin 3) ℝ

/-- glm's conversion `mat3x4(M)` for a 4×4 matrix `M`: keep the first 3
columns. -/
def truncCols (m : Mat4) : Mat3x4 := Matrix.submatrix m id Fin.castSucc

/-- Transpose of a 4×4 matrix (`glm::transpose`). -/
def mat4Transpose (m : Mat4) : Mat4 := Matrix.transpose m

/-- `glm::lookAt` (right-handed): with `f = normalize(center - eye)`,
`s = normalize(cross(f, up))`, `u = cross(s, f)`, the rows are
`(s, -dot(s,eye))`, `(u, -dot(u,eye))`, `(-f, dot(f,eye))`,
`(0,0,0,1)`. -/
def glmLookAt (eye center up : Vec3) : Mat4 :=
  let f := normalize3 (vsub center eye)
  let s := normalize3 (cross3 f up)
  let u := cross3 s f
  Matrix.of ![![s.x, s.y, s.z, -(dot3 s eye)],
              ![u.x, u.y, u.z, -(dot3 u eye)],
              ![-f.x, -f.y, -f.z, dot3 f eye],
              ![0, 0, 0, 1]]

/-- `glm::perspective` (right-handed, `[-1,1]` depth): with
`tanHalfFovy = tan(fovy / 2)`, the nonzero entries are
`m00 = 1/(aspect·tanHalfFovy)`, `m11 = 1/tanHalfFovy`,
`m22 = -(far+near)/(far-near)`, `m23 = -2·far·near/(far-near)` and
`m32 = -1` (row, col indexing). -/
def glmPerspective (fovy aspect zNear zFar : ℝ) : Mat4 :=
  let tanHalfFovy := Real.tan (fovy / 2)
  Matrix.of ![![1 / (aspect * tanHalfFovy), 0, 0, 0],
              ![0, 1 / tanHalfFovy, 0, 0],
              ![0, 0, -(zFar + zNear) / (zFar - zNear),
                -(2 * zFar * zNear) / (zFar - zNear)],
              ![0, 0, -1, 0]]

/-- The two matrices `Scene::UpdateTransformBlockSingleSpotLight`
(scene.cpp lines 305-326) writes into the transform uniform block for
spot light `light`: the world-to-view matrix
`mat3x4(transpose(lookAt(position, position + direction, (0,1,0))))`
uploaded at offset 0, and the projection matrix
`perspective(radians(45), SHADOW_WIDTH/SHADOW_HEIGHT, near_plane,
far_plane)` with `near_plane = 0.1`, `far_plane = 1000.1`,
`SHADOW_WIDTH = SHADOW_HEIGHT = 1024`, uploaded after it. -/
def spotLightTransformUpload (s : SceneState) (light : ℕ) : Mat3x4 × Mat4 :=
  let l := s.spotLights.getD light dSL
  let lightViewMatrix := glmLookAt l.position (vadd l.position l.direction) ⟨0, 1, 0⟩
  let worldToView := truncCols (mat4Transpose lightViewMatrix)
  let near_plane : ℝ := 0.1
  let far_plane : ℝ := 1000.1
  let SHADOW_WIDTH : ℝ := 1024
  let SHADOW_HEIGHT : ℝ := 1024
  (worldToView,
   glmPerspective (radians 45) (SHADOW_WIDTH / SHADOW_HEIGHT) near_plane far_plane)

/-- Concrete GL handles used by witnesses; all names nonzero, as
`glGen*`/texture creation guarantee. -/
def wHandles : GLHandles :=
  ⟨1, 2, 3, 4, 5, 6, [7, 8, 9, 10, 11, 12, 13, 14]⟩

/-- A concrete already-updated scene used by witnesses: two point lights
(the hero light and one random-parameter light) and one spot light. -/
def wState : SceneState :=
  { SceneState.initial with
    numPointLights := 2
    numSpotLights := 1
    pointLights := [heroLight 2, ⟨origin3, ⟨1, 1, 1, ambientIntensity 2⟩, ⟨1, 1, 1, 1⟩⟩]
    spotLights := [⟨origin3, ⟨1, 1, 1, ambientIntensity 2⟩, ⟨1, 1, 1, 1⟩, ⟨1, 0, 0⟩,
      radians 12.5, radians 17.5⟩] }

/-- A scene holding exactly the hero point light with the animation
clock at 0, used to evaluate `Scene::Update` on the special-cased first
point light. -/
def c3State : SceneState :=
  { SceneState.initial with
    numPointLights := 1
    pointLights := [heroLight 1] }

/-! ## Helper lemmas -/

/-- `updateEach` preserves the list length. -/
theorem updateEach_length (f : ℕ → α → α) :
    ∀ (k : ℕ) (l : List α), (updateEach f k l).length = l.length
  | _, [] => rfl
  | k, _ :: as => by simp [updateEach, updateEach_length f (k + 1) as]

/-- Element `i` of `updateEach f k l` is `f (k + i)` of element `i`. -/
theorem updateEach_getD (f : ℕ → α → α) (d : α) :
    ∀ (l : List α) (k i : ℕ), i < l.length →
      (updateEach f k l).getD i d = f (k + i) (l.getD i d) := by
  intro l
  induction l with
  | nil => intro k i h; simp at h
  | cons a as ih =>
    intro k i h
    cases i with
    | zero => simp [updateEach]
    | succ j =>
      have hj : j < as.length := by simpa using h
      simpa [updateEach, Nat.add_assoc, Nat.add_comm, Nat.add_left_comm]
        using ih (k + 1) j hj

/-- `Scene::Update` leaves the light counts unchanged and only advances
the clock by `dt`. -/
theorem update_counts (dt : ℝ) (s : SceneState) :
    (Scene.update dt s).numPointLights = s.numPointLights ∧
    (Scene.update dt s).numSpotLights = s.numSpotLights ∧
    (Scene.update dt s).animTime = s.animTime + dt ∧
    (Scene.update dt s).pointLights.length = s.pointLights.length ∧
    (Scene.update dt s).spotLights.length = s.spotLights.length := by
  refine ⟨rfl, rfl, rfl, ?_, ?_⟩ <;>
    simp [Scene.update, updatePointLights, updateSpotLights, updateEach_length]

/-- Running a sequence of updates preserves the light counts and list
lengths, and accumulates the per-call deltas into the clock. -/
theorem runUpdates_facts (dts : List ℝ) (s : SceneState) :
    (runUpdates dts s).numPointLights = s.numPointLights ∧
    (runUpdates dts s).numSpotLights = s.numSpotLights ∧
    (runUpdates dts s).animTime = s.animTime + dts.sum ∧
    (runUpdates dts s).pointLights.length = s.pointLights.length ∧
    (runUpdates dts s).spotLights.length = s.spotLights.length := by
  induction dts generalizing s with
  | nil => simp [runUpdates]
  | cons d ds ih =>
    have h := ih (Scene.update d s)
    have hc := update_counts d s
    simp only [runUpdates, List.foldl_cons] at h ⊢
    refine ⟨?_, ?_, ?_, ?_, ?_⟩
    · rw [h.1, hc.1]
    · rw [h.2.1, hc.2.1]
    · rw [h.2.2.1, hc.2.2.1, List.sum_cons]
      ring
    · rw [h.2.2.2.1, hc.2.2.2.1]
    · rw [h.2.2.2.2, hc.2.2.2.2]

/-- Splitting a run of updates at the end: the last `dt` is applied to
the state reached by the earlier calls. -/
theorem runUpdates_append (dts1 dts2 : List ℝ) (s : SceneState) :
    runUpdates (dts1 ++ dts2) s = runUpdates dts2 (runUpdates dts1 s) := by
  simp [runUpdates, List.foldl_append]

/-- After any single `Scene::Update`, every spot light with index below
the spot-light count points from its (fresh) position toward the world
origin. -/
theorem update_spot_direction (dt : ℝ) (s : SceneState) (i : ℕ)
    (h1 : i < s.numSpotLights) (h2 : i < s.spotLights.length) :
    ((Scene.update dt s).spotLights.getD i dSL).direction =
      normalize3 (vsub origin3 (((Scene.update dt s).spotLights.getD i dSL).position)) := by
  have := updateEach_getD
    (fun i l =>
      if i < s.numSpotLights then
        let pos := vadd offset (vmul (lissajous l.movement s.animTime) scale)
        { l with position := pos, direction := normalize3 (vsub origin3 pos) }
      else l) dSL s.spotLights 0 i h2
  simp only [Scene.update, updateSpotLights, Nat.zero_add] at this ⊢
  rw [this]
  simp [h1]

/-- `passKinds`/`tagKinds` distribute over `++`. -/
theorem filterMap_tags_append (f : GLCmd → Option PassTag) (a b : List GLCmd) :
    (a ++ b).filterMap f = a.filterMap f ++ b.filterMap f :=
  List.filterMap_append a b f

/-- Extracting tags from a loop whose blocks all produce the same tag
list `B` yields `n` copies of `B`. -/
theorem filterMap_flatMap_const (f : GLCmd → Option PassTag) (g : ℕ → List GLCmd)
    (B : List PassTag) (hB : ∀ i, (g i).filterMap f = B) :
    ∀ n, ((List.range n).flatMap g).filterMap f = (List.replicate n B).flatten := by
  intro n
  induction n with
  | zero => simp
  | succ m ih =>
    rw [List.range_succ, List.flatMap_append, filterMap_tags_append, ih,
      List.replicate_succ', List.flatten_append]
    simp [hB]

/-- The passes of one point-light loop iteration: shadow volume, direct
light, ambient light. -/
theorem passKinds_pointLightBlock (cr : Bool) (p : Vec3) (c : Vec4) :
    (pointLightBlock cr p c).filterMap cmdPassTag =
      [PassTag.shadowVolume, PassTag.directLight, PassTag.ambientLight] := by
  cases cr <;> rfl

/-- The passes and stencil clears of one point-light loop iteration. -/
theorem tagKinds_pointLightBlock (cr : Bool) (p : Vec3) (c : Vec4) :
    (pointLightBlock cr p c).filterMap cmdTag =
      [PassTag.stencilClear, PassTag.shadowVolume, PassTag.directLight,
       PassTag.ambientLight] := by
  cases cr <;> rfl

/-- The passes of one spot-light loop iteration: ambient light only. -/
theorem passKinds_spotLightBlock (p : Vec3) (c : Vec4) :
    (spotLightBlock p c).filterMap cmdPassTag = [PassTag.ambientLight] := rfl

/-- The passes and stencil clears of one spot-light loop iteration. -/
theorem tagKinds_spotLightBlock (p : Vec3) (c : Vec4) :
    (spotLightBlock p c).filterMap cmdTag =
      [PassTag.stencilClear, PassTag.ambientLight] := rfl

/-- The setup segment executes exactly the depth-prime pass (and no
stencil clear — its `glClear` touches color and depth only). -/
theorem passKinds_drawSetup (rm : RenderMode) :
    (drawSetupCmds rm).filterMap cmdPassTag = [PassTag.depthPrime] := by
  by_cases hm : rm.msaaLevel > 1 <;>
    simp [drawSetupCmds, depthPassCmds, hm, cmdPassTag, RenderPass.DepthPass]

/-- Tag version of `passKinds_drawSetup`. -/
theorem tagKinds_drawSetup (rm : RenderMode) :
    (drawSetupCmds rm).filterMap cmdTag = [PassTag.depthPrime] := by
  by_cases hm : rm.msaaLevel > 1 <;>
    simp [drawSetupCmds, depthPassCmds, hm, cmdTag, cmdPassTag, RenderPass.DepthPass]

/-- `applyCmds` distributes over `++`. -/
theorem applyCmds_append (st : GLState) (a b : List GLCmd) :
    applyCmds st (a ++ b) = applyCmds (applyCmds st a) b := by
  simp [applyCmds, List.foldl_append]

/-- `runCheck` over `a ++ b` checks `a` from the initial state and `b`
from the state after `a`. -/
theorem runCheck_append (ok : GLState → GLCmd → Bool) (st : GLState)
    (a b : List GLCmd) :
    runCheck ok st (a ++ b) =
      (runCheck ok st a && runCheck ok (applyCmds st a) b) := by
  induction a generalizing st with
  | nil => simp [runCheck, applyCmds]
  | cons c cs ih =>
    rw [List.cons_append]
    show (ok st c && runCheck ok (st.step c) (cs ++ b)) = _
    rw [ih]
    show _ = ((ok st c && runCheck ok (st.step c) cs) &&
      runCheck ok (applyCmds (st.step c) cs) b)
    rw [Bool.and_assoc]

/-- The pipeline-state invariant maintained between loop iterations of
`Scene::Draw`: depth write stays disabled after the depth prime, the
depth function stays `LEQUAL`, and face culling is left enabled. -/
def loopInv (st : GLState) : Prop :=
  st.depthMaskOn = false ∧ st.depthFuncV = DepthFn.lequal ∧ st.cullFaceOn = true

/-- Induction over a loop of blocks: if each block passes `ok` from any
state satisfying `inv` and preserves `inv`, the whole loop passes `ok`
and preserves `inv`. -/
theorem runCheck_flatMap (ok : GLState → GLCmd → Bool) (inv : GLState → Prop)
    (g : ℕ → List GLCmd)
    (hblock : ∀ i st, inv st → runCheck ok st (g i) = true)
    (hpres : ∀ i st, inv st → inv (applyCmds st (g i))) :
    ∀ (n : ℕ) (st : GLState), inv st →
      runCheck ok st ((List.range n).flatMap g) = true ∧
      inv (applyCmds st ((List.range n).flatMap g)) := by
  intro n
  induction n with
  | zero =>
    intro st h
    exact ⟨rfl, h⟩
  | succ m ih =>
    intro st h
    rw [List.range_succ, List.flatMap_append]
    have h1 := ih st h
    have hsingle : List.flatMap [m] g = g m := by simp
    constructor
    · rw [runCheck_append, h1.1, hsingle]
      simpa using hblock m _ h1.2
    · rw [applyCmds_append, hsingle]
      exact hpres m _ h1.2

/-- One point-light iteration passes the depth-prime conditions from any
state satisfying the loop invariant. -/
theorem pointBlock_check_depthPrime (cr : Bool) (p : Vec3) (c : Vec4)
    (st : GLState) (h : loopInv st) :
    runCheck depthPrimeOK st (pointLightBlock cr p c) = true := by
  obtain ⟨h1, h2, _⟩ := h
  cases cr <;>
    simp [pointLightBlock, shadowVolumePassCmds, lightPassCmds, runCheck,
      GLState.step, depthPrimeOK, h1, h2, RenderPass.DepthPass,
      RenderPass.ShadowVolume, RenderPass.DirectLight, RenderPass.AmbientLight]

/-- One point-light iteration preserves the loop invariant. -/
theorem pointBlock_preserves_inv (cr : Bool) (p : Vec3) (c : Vec4)
    (st : GLState) (h : loopInv st) :
    loopInv (applyCmds st (pointLightBlock cr p c)) := by
  obtain ⟨h1, h2, _⟩ := h
  cases cr <;>
    simp [pointLightBlock, shadowVolumePassCmds, lightPassCmds, applyCmds,
      GLState.step, loopInv, h1, h2]

/-- One spot-light iteration passes the depth-prime conditions from any
state satisfying the loop invariant. -/
theorem spotBlock_check_depthPrime (p : Vec3) (c : Vec4)
    (st : GLState) (h : loopInv st) :
    runCheck depthPrimeOK st (spotLightBlock p c) = true := by
  obtain ⟨h1, h2, _⟩ := h
  simp [spotLightBlock, lightPassCmds, runCheck, GLState.step, depthPrimeOK,
    h1, h2, RenderPass.DepthPass, RenderPass.ShadowVolume, RenderPass.AmbientLight]

/-- One spot-light iteration preserves the loop invariant. -/
theorem spotBlock_preserves_inv (p : Vec3) (c : Vec4)
    (st : GLState) (h : loopInv st) :
    loopInv (applyCmds st (spotLightBlock p c)) := by
  obtain ⟨h1, h2, h3⟩ := h
  simp [spotLightBlock, lightPassCmds, applyCmds, GLState.step, loopInv,
    h1, h2, h3]

/-- The setup segment passes the depth-prime conditions from any initial
state: color write is disabled, depth write enabled and the depth
function set to `LEQUAL` before the two depth-prime draws. -/
theorem drawSetup_check_depthPrime (rm : RenderMode) (g0 : GLState) :
    runCheck depthPrimeOK g0 (drawSetupCmds rm) = true := by
  by_cases hm : rm.msaaLevel > 1 <;>
    simp [drawSetupCmds, depthPassCmds, hm, runCheck, GLState.step,
      depthPrimeOK, RenderPass.DepthPass]

/-- The setup segment establishes the loop invariant from any initial
state: it ends with depth write off (after the prime), depth function
`LEQUAL` and face culling enabled. -/
theorem drawSetup_establishes_inv (rm : RenderMode) (g0 : GLState) :
    loopInv (applyCmds g0 (drawSetupCmds rm)) := by
  by_cases hm : rm.msaaLevel > 1 <;>
    simp [drawSetupCmds, depthPassCmds, hm, applyCmds, GLState.step, loopInv]

/-- One point-light iteration passes the shadow-volume stencil
conditions: culling off and the `carmackReverse`-selected stencil
operations at the shadow-volume draw, culling back on at the light
draws. -/
theorem pointBlock_check_shadowStencil (cr : Bool) (p : Vec3) (c : Vec4)
    (st : GLState) (_h : loopInv st) :
    runCheck (shadowStencilOK cr) st (pointLightBlock cr p c) = true := by
  cases cr <;>
    simp [pointLightBlock, shadowVolumePassCmds, lightPassCmds, runCheck,
      GLState.step, shadowStencilOK, RenderPass.DepthPass,
      RenderPass.ShadowVolume, RenderPass.DirectLight, RenderPass.AmbientLight]

/-- One spot-light iteration passes the shadow-volume stencil
conditions (its only draws are ambient-light ones, with culling still
enabled from the invariant). -/
theorem spotBlock_check_shadowStencil (cr : Bool) (p : Vec3) (c : Vec4)
    (st : GLState) (h : loopInv st) :
    runCheck (shadowStencilOK cr) st (spotLightBlock p c) = true := by
  obtain ⟨_, _, h3⟩ := h
  simp [spotLightBlock, lightPassCmds, runCheck, GLState.step, shadowStencilOK,
    h3, RenderPass.ShadowVolume, RenderPass.AmbientLight]

/-- The setup segment passes the shadow-volume stencil conditions from
any initial state (culling is enabled before its draws). -/
theorem drawSetup_check_shadowStencil (cr : Bool) (rm : RenderMode) (g0 : GLState) :
    runCheck (shadowStencilOK cr) g0 (drawSetupCmds rm) = true := by
  by_cases hm : rm.msaaLevel > 1 <;>
    simp [drawSetupCmds, depthPassCmds, hm, runCheck, GLState.step,
      shadowStencilOK, RenderPass.DepthPass, RenderPass.ShadowVolume]

/-! ## Claims -/

/-- C1: each invocation of `Scene::Draw` executes exactly one
depth-prime pass (color write disabled, depth test `LEQUAL` with depth
write on, and depth write disabled for every subsequent draw), then in
index order for each of the `numPointLights` point lights the sequence
stencil-clear, shadow-volume pass (color write disabled), direct-light
pass, ambient-light pass, and then for each of the `numSpotLights` spot
lights only an ambient-light pass — no direct-light pass is ever issued
in the spot loop. -/
theorem scene_draw_pass_order (s : SceneState) (rm : RenderMode) (cr : Bool)
    (g0 : GLState) :
    passKinds (Scene.drawCmds s rm cr) =
      PassTag.depthPrime ::
        ((List.replicate s.numPointLights
          [PassTag.shadowVolume, PassTag.directLight, PassTag.ambientLight]).flatten ++
         (List.replicate s.numSpotLights [PassTag.ambientLight]).flatten) ∧
    tagKinds (Scene.drawCmds s rm cr) =
      PassTag.depthPrime ::
        ((List.replicate s.numPointLights
          [PassTag.stencilClear, PassTag.shadowVolume, PassTag.directLight,
           PassTag.ambientLight]).flatten ++
         (List.replicate s.numSpotLights
          [PassTag.stencilClear, PassTag.ambientLight]).flatten) ∧
    runCheck depthPrimeOK g0 (Scene.drawCmds s rm cr) = true := by
  have hPpass := filterMap_flatMap_const cmdPassTag
    (fun i => pointLightBlock cr (s.pointLights.getD i dPL).position
      (s.pointLights.getD i dPL).color) _
    (fun i => passKinds_pointLightBlock cr _ _) s.numPointLights
  have hSpass := filterMap_flatMap_const cmdPassTag
    (fun i => spotLightBlock (s.spotLights.getD i dSL).position
      (s.spotLights.getD i dSL).color) _
    (fun i => passKinds_spotLightBlock _ _) s.numSpotLights
  have hPtag := filterMap_flatMap_const cmdTag
    (fun i => pointLightBlock cr (s.pointLights.getD i dPL).position
      (s.pointLights.getD i dPL).color) _
    (fun i => tagKinds_pointLightBlock cr _ _) s.numPointLights
  have hStag := filterMap_flatMap_const cmdTag
    (fun i => spotLightBlock (s.spotLights.getD i dSL).position
      (s.spotLights.getD i dSL).color) _
    (fun i => tagKinds_spotLightBlock _ _) s.numSpotLights
  refine ⟨?_, ?_, ?_⟩
  · rw [Scene.drawCmds, passKinds, filterMap_tags_append, filterMap_tags_append,
      filterMap_tags_append, hPpass, hSpass, passKinds_drawSetup]
    simp [cmdPassTag]
  · rw [Scene.drawCmds, tagKinds, filterMap_tags_append, filterMap_tags_append,
      filterMap_tags_append, hPtag, hStag, tagKinds_drawSetup]
    simp [cmdTag, cmdPassTag]
  · have hsetup := drawSetup_check_depthPrime rm g0
    have hinv0 := drawSetup_establishes_inv rm g0
    have hpoint := runCheck_flatMap depthPrimeOK loopInv _
      (fun i st h => pointBlock_check_depthPrime cr
        (s.pointLights.getD i dPL).position (s.pointLights.getD i dPL).color st h)
      (fun i st h => pointBlock_preserves_inv cr
        (s.pointLights.getD i dPL).position (s.pointLights.getD i dPL).color st h)
      s.numPointLights _ hinv0
    have hspot := runCheck_flatMap depthPrimeOK loopInv _
      (fun i st h => spotBlock_check_depthPrime
        (s.spotLights.getD i dSL).position (s.spotLights.getD i dSL).color st h)
      (fun i st h => spotBlock_preserves_inv
        (s.spotLights.getD i dSL).position (s.spotLights.getD i dSL).color st h)
      s.numSpotLights _ hpoint.2
    rw [Scene.drawCmds, runCheck_append, runCheck_append, runCheck_append]
    simp only [applyCmds_append]
    rw [hsetup, hpoint.1, hspot.1]
    simp [runCheck, depthPrimeOK]

/-- C2: in the shadow-volume pass the stencil test is set to always
pass (`GL_ALWAYS`, ref 0, mask 0xff); with `carmackReverse = true`
(depth-fail) back faces increment on depth-fail and front faces
decrement on depth-fail, while with `carmackReverse = false`
(depth-pass) back faces decrement on depth-pass and front faces
increment on depth-pass (operation triples are (stencil-fail,
depth-fail, depth-pass), the others `KEEP`); face culling is disabled
when the shadow-volume draw executes and is re-enabled afterwards
(every later draw, and the final state, has culling enabled). -/
theorem shadow_volume_stencil_config (s : SceneState) (rm : RenderMode)
    (cr : Bool) (g0 : GLState) :
    runCheck (shadowStencilOK cr) g0 (Scene.drawCmds s rm cr) = true ∧
    (applyCmds g0 (Scene.drawCmds s rm cr)).cullFaceOn = true := by
  have hsetup := drawSetup_check_shadowStencil cr rm g0
  have hinv0 := drawSetup_establishes_inv rm g0
  have hpoint := runCheck_flatMap (shadowStencilOK cr) loopInv _
    (fun i st h => pointBlock_check_shadowStencil cr
      (s.pointLights.getD i dPL).position (s.pointLights.getD i dPL).color st h)
    (fun i st h => pointBlock_preserves_inv cr
      (s.pointLights.getD i dPL).position (s.pointLights.getD i dPL).color st h)
    s.numPointLights _ hinv0
  have hspot := runCheck_flatMap (shadowStencilOK cr) loopInv _
    (fun i st h => spotBlock_check_shadowStencil cr
      (s.spotLights.getD i dSL).position (s.spotLights.getD i dSL).color st h)
    (fun i st h => spotBlock_preserves_inv
      (s.spotLights.getD i dSL).position (s.spotLights.getD i dSL).color st h)
    s.numSpotLights _ hpoint.2
  constructor
  · rw [Scene.drawCmds, runCheck_append, runCheck_append, runCheck_append]
    simp only [applyCmds_append]
    rw [hsetup, hpoint.1, hspot.1]
    simp [runCheck, shadowStencilOK]
  · rw [Scene.drawCmds]
    simp only [applyCmds_append]
    have hfin := hspot.2.2.2
    simpa [applyCmds, GLState.step] using hfin

/-- C7: for all trajectory parameters `p` and all times `t`, every
component of `lissajous(p, t) = (sin(p.x·t), cos(p.y·t),
sin(p.z·t)·cos(p.w·t))` lies in the interval `[-1, 1]`. -/
theorem lissajous_components_in_unit_interval (p : Vec4) (t : ℝ) :
    (-1 ≤ (lissajous p t).x ∧ (lissajous p t).x ≤ 1) ∧
    (-1 ≤ (lissajous p t).y ∧ (lissajous p t).y ≤ 1) ∧
    (-1 ≤ (lissajous p t).z ∧ (lissajous p t).z ≤ 1) := by
  refine ⟨⟨Real.neg_one_le_sin _, Real.sin_le_one _⟩,
    ⟨Real.neg_one_le_cos _, Real.cos_le_one _⟩, ?_⟩
  have h : |Real.sin (p.z * t) * Real.cos (p.w * t)| ≤ 1 := by
    rw [abs_mul]
    exact mul_le_one₀ (Real.abs_sin_le_one _) (abs_nonneg _) (Real.abs_cos_le_one _)
  exact abs_le.mp h

/-- C6: under the precondition `numCubes ≤ MAX_INSTANCES`,
`Scene::UpdateInstanceData` writes only indices inside the fixed-size
CPU instance array and copies exactly `numCubes * sizeof(InstanceData)`
bytes, which fits the GPU instance buffer; an out-of-bounds write index
is reachable exactly when the count exceeds `MAX_INSTANCES`. -/
theorem update_instance_data_bounds (n : ℕ) (h : n ≤ MAX_INSTANCES) :
    (∀ i ∈ instanceWrites n, i < MAX_INSTANCES) ∧
    instanceCopyBytes n = n * instanceDataSize ∧
    instanceCopyBytes n ≤ instanceBufferCapacityBytes ∧
    (∀ m : ℕ, (∃ i ∈ instanceWrites m, MAX_INSTANCES ≤ i) ↔ MAX_INSTANCES < m) := by
  refine ⟨?_, rfl, ?_, ?_⟩
  · intro i hi
    exact lt_of_lt_of_le (List.mem_range.mp hi) h
  · simp only [instanceCopyBytes, instanceBufferCapacityBytes]
    exact Nat.mul_le_mul_right _ h
  · intro m
    constructor
    · rintro ⟨i, hi, hge⟩
      exact lt_of_le_of_lt hge (List.mem_range.mp hi)
    · intro hm
      exact ⟨MAX_INSTANCES, List.mem_range.mpr hm, le_rfl⟩

/-- Witness for C6 at the concrete count 3. -/
theorem update_instance_data_bounds_witness :
    3 ≤ MAX_INSTANCES ∧
    instanceCopyBytes 3 = 3 * instanceDataSize ∧
    instanceCopyBytes 3 ≤ instanceBufferCapacityBytes :=
  ⟨by decide, (update_instance_data_bounds 3 (by decide)).2.1,
    (update_instance_data_bounds 3 (by decide)).2.2.1⟩

/-- C5: calling `Scene::Init` on an already-initialized scene (one whose
first `Init` ran, making `_vao` a nonzero GL name) returns without
modifying any scene state; more generally any call with `_vao ≠ 0` is a
no-op on the whole state record. -/
theorem scene_init_second_call_no_effect
    (nc1 np1 ns1 nc2 np2 ns2 : ℕ) (rng1 rng2 : ℕ → ℝ) (h1 h2 : GLHandles)
    (s : SceneState) (hfresh : s.vao = 0) (hgen : h1.vao ≠ 0) :
    Scene.init nc2 np2 ns2 rng2 h2 (Scene.init nc1 np1 ns1 rng1 h1 s) =
      Scene.init nc1 np1 ns1 rng1 h1 s ∧
    (∀ s' : SceneState, s'.vao ≠ 0 → Scene.init nc2 np2 ns2 rng2 h2 s' = s') := by
  have key : ∀ s' : SceneState, s'.vao ≠ 0 →
      Scene.init nc2 np2 ns2 rng2 h2 s' = s' := by
    intro s' hv
    simp [Scene.init, hv]
  refine ⟨key _ ?_, key⟩
  simp [Scene.init, hfresh, hgen]

/-- Witness for C5: a second `Init` call on the freshly initialized
scene leaves it unchanged. -/
theorem scene_init_second_call_no_effect_witness :
    SceneState.initial.vao = 0 ∧ wHandles.vao ≠ 0 ∧
    Scene.init 5 3 2 (fun _ => 1) wHandles
        (Scene.init 10 2 1 (fun _ => 0) wHandles SceneState.initial) =
      Scene.init 10 2 1 (fun _ => 0) wHandles SceneState.initial :=
  ⟨rfl, by decide,
    (scene_init_second_call_no_effect 10 2 1 5 3 2 (fun _ => 0) (fun _ => 1)
      wHandles wHandles SceneState.initial rfl (by decide)).1⟩

/-- C8: `Scene::Init` always pushes the fixed hero point light at
`(-3, 3, 0)` before the randomly parameterized ones — so the point-light
list is never empty, even for `numPointLights = 0` — and the ambient
term `1e-3 / numPointLights` is computed with no zero-guard and stored
as the fourth color component of every point light and every spot
light; at `numPointLights = 0` that quotient is the unguarded
`1e-3 / 0`. -/
theorem scene_init_hero_light_and_ambient
    (nc np ns : ℕ) (rng : ℕ → ℝ) (h : GLHandles) (s : SceneState)
    (hfresh : s.vao = 0) :
    (Scene.init nc np ns rng h s).pointLights.length = 1 + (np - 1) ∧
    (Scene.init nc np ns rng h s).pointLights ≠ [] ∧
    (Scene.init nc np ns rng h s).pointLights.getD 0 dPL = heroLight np ∧
    (heroLight np).position = ⟨-3, 3, 0⟩ ∧
    (∀ l ∈ (Scene.init nc np ns rng h s).pointLights,
      l.color.w = ambientIntensity np) ∧
    (∀ l ∈ (Scene.init nc np ns rng h s).spotLights,
      l.color.w = ambientIntensity np) ∧
    (np = 0 → ambientIntensity np = 1e-3 / 0) := by
  have hbuild : Scene.init nc np ns rng h s =
      { numCubes := nc
        numPointLights := np
        numSpotLights := ns
        cubePositions := cubePositionsInit nc rng
        pointLights := pointLightsInit np rng (pointRngBase nc)
        spotLights := spotLightsInit np ns rng (spotRngBase nc np)
        vao := h.vao
        quad := some h.quad
        cube := some h.cube
        cubeAdjacency := some h.cubeAdjacency
        instancingBuffer := h.instancingBuffer
        transformBlockUBO := h.transformBlockUBO
        loadedTextures := h.textures
        animTime := s.animTime } := by
    simp [Scene.init, hfresh]
  rw [hbuild]
  refine ⟨by simp [pointLightsInit]; omega, by simp [pointLightsInit], rfl, rfl,
    ?_, ?_, ?_⟩
  · intro l hl
    simp only [pointLightsInit, List.mem_cons, List.mem_map, List.mem_range] at hl
    rcases hl with hl | ⟨j, _, hl⟩
    · rw [hl]; rfl
    · rw [← hl]
  · intro l hl
    simp only [spotLightsInit, List.mem_map, List.mem_range] at hl
    rcases hl with ⟨j, _, hl⟩
    rw [← hl]
  · intro h0
    rw [h0]
    simp [ambientIntensity]

/-- Witness for C8 at `numPointLights = 0`: the hero light is still
there and the ambient quotient's denominator is zero. -/
theorem scene_init_hero_light_and_ambient_witness :
    SceneState.initial.vao = 0 ∧
    (Scene.init 10 0 1 (fun _ => 2) wHandles SceneState.initial).pointLights ≠ [] ∧
    (Scene.init 10 0 1 (fun _ => 2) wHandles SceneState.initial).pointLights.getD 0 dPL =
      heroLight 0 ∧
    ambientIntensity 0 = 1e-3 / 0 := by
  have h := scene_init_hero_light_and_ambient 10 0 1 (fun _ => 2) wHandles
    SceneState.initial rfl
  exact ⟨rfl, h.2.1, h.2.2.1, h.2.2.2.2.2.2 rfl⟩

/-- C9: `Scene::Update(dt)` computes all light positions from the
animation clock accumulated by the previous calls and only then adds
`dt`: a single call rewrites the lights at the prior clock value
(independently of the `dt` passed), and after a run of calls ending in
`dt` the lights were rewritten at clock `initial + sum of all earlier
deltas`, while the clock itself accumulates every delta. -/
theorem scene_update_clock_accumulation (dts : List ℝ) (dt dt' : ℝ)
    (s : SceneState) :
    (Scene.update dt s).pointLights =
      updatePointLights s.numPointLights s.animTime s.pointLights ∧
    (Scene.update dt s).spotLights =
      updateSpotLights s.numSpotLights s.animTime s.spotLights ∧
    (Scene.update dt s).pointLights = (Scene.update dt' s).pointLights ∧
    (Scene.update dt s).spotLights = (Scene.update dt' s).spotLights ∧
    (runUpdates dts s).animTime = s.animTime + dts.sum ∧
    (runUpdates (dts ++ [dt]) s).pointLights =
      updatePointLights s.numPointLights (s.animTime + dts.sum)
        ((runUpdates dts s).pointLights) ∧
    (runUpdates (dts ++ [dt]) s).spotLights =
      updateSpotLights s.numSpotLights (s.animTime + dts.sum)
        ((runUpdates dts s).spotLights) := by
  have hf := runUpdates_facts dts s
  have hsplit := runUpdates_append dts [dt] s
  refine ⟨rfl, rfl, rfl, rfl, hf.2.2.1, ?_, ?_⟩
  · rw [hsplit]
    show updatePointLights (runUpdates dts s).numPointLights
      (runUpdates dts s).animTime (runUpdates dts s).pointLights = _
    rw [hf.1, hf.2.2.1]
  · rw [hsplit]
    show updateSpotLights (runUpdates dts s).numSpotLights
      (runUpdates dts s).animTime (runUpdates dts s).spotLights = _
    rw [hf.2.1, hf.2.2.1]

/-- C3 counterexample: on a scene holding one point light (the hero
light, movement parameters `(0, 1, 0, 0)`) with the clock at 0,
`Scene::Update` does not place that light at
`offset + lissajous(movement, t) * scale` — the code gives point light
0 the special position `(-3, 2, 0) + lissajous(movement, t)` with no
`scale` factor, i.e. `(-3, 3, 0)` instead of the claimed `(0, 5, 0)`. -/
theorem scene_update_uniform_position_cex :
    ((Scene.update 1 c3State).pointLights.getD 0 dPL).position ≠
      vadd offset (vmul (lissajous ((c3State.pointLights.getD 0 dPL).movement)
        c3State.animTime) scale) := by
  have hL : ((Scene.update 1 c3State).pointLights.getD 0 dPL).position =
      ⟨-3, 3, 0⟩ := by
    simp [Scene.update, updatePointLights, updateEach, c3State, SceneState.initial,
      heroLight, vadd, lissajous]
    norm_num
  have hR : vadd offset (vmul (lissajous ((c3State.pointLights.getD 0 dPL).movement)
      c3State.animTime) scale) = ⟨0, 5, 0⟩ := by
    simp [c3State, SceneState.initial, heroLight, vadd, vmul, lissajous, offset, scale]
    norm_num
  rw [hL, hR]
  simp only [ne_eq, Vec3.mk.injEq, not_and]
  norm_num

/-- C3 amended: `Scene::Update(dt)` recomputes every point light of
index ≥ 1 and every spot light at `offset + lissajous(movement, t) *
scale`, with `t` the prior clock value, and recomputes every spot
light's direction as `normalize(origin - position)`; point light 0 is
special-cased to `(-3, 2, 0) + lissajous(movement, t)` with no `scale`
factor. -/
theorem scene_update_positions (dt : ℝ) (s : SceneState) :
    (s.pointLights ≠ [] →
      ((Scene.update dt s).pointLights.getD 0 dPL).position =
        vadd ⟨-3, 2, 0⟩ (lissajous ((s.pointLights.getD 0 dPL).movement) s.animTime)) ∧
    (∀ i, 1 ≤ i → i < s.numPointLights → i < s.pointLights.length →
      ((Scene.update dt s).pointLights.getD i dPL).position =
        vadd offset (vmul (lissajous ((s.pointLights.getD i dPL).movement)
          s.animTime) scale)) ∧
    (∀ i, i < s.numSpotLights → i < s.spotLights.length →
      ((Scene.update dt s).spotLights.getD i dSL).position =
        vadd offset (vmul (lissajous ((s.spotLights.getD i dSL).movement)
          s.animTime) scale) ∧
      ((Scene.update dt s).spotLights.getD i dSL).direction =
        normalize3 (vsub origin3
          (((Scene.update dt s).spotLights.getD i dSL).position))) := by
  refine ⟨?_, ?_, ?_⟩
  · intro hne
    have h0 : 0 < s.pointLights.length := List.length_pos.mpr hne
    have := updateEach_getD
      (fun i l =>
        if i = 0 then
          { l with position := vadd ⟨-3, 2, 0⟩ (lissajous l.movement s.animTime) }
        else if i < s.numPointLights then
          { l with position := vadd offset (vmul (lissajous l.movement s.animTime) scale) }
        else l) dPL s.pointLights 0 0 h0
    simp only [Scene.update, updatePointLights] at this ⊢
    rw [this]
    simp
  · intro i h1 h2 h3
    have := updateEach_getD
      (fun i l =>
        if i = 0 then
          { l with position := vadd ⟨-3, 2, 0⟩ (lissajous l.movement s.animTime) }
        else if i < s.numPointLights then
          { l with position := vadd offset (vmul (lissajous l.movement s.animTime) scale) }
        else l) dPL s.pointLights 0 i h3
    have hne0 : i ≠ 0 := by omega
    simp only [Scene.update, updatePointLights, Nat.zero_add] at this ⊢
    rw [this]
    simp [hne0, h2]
  · intro i h1 h2
    have := updateEach_getD
      (fun i l =>
        if i < s.numSpotLights then
          let pos := vadd offset (vmul (lissajous l.movement s.animTime) scale)
          { l with position := pos, direction := normalize3 (vsub origin3 pos) }
        else l) dSL s.spotLights 0 i h2
    simp only [Scene.update, updateSpotLights, Nat.zero_add] at this ⊢
    rw [this]
    simp [h1]

/-- Witness for C3 amended, on the concrete two-point-light /
one-spot-light scene `wState`. -/
theorem scene_update_positions_witness :
    ((Scene.update 1 wState).pointLights.getD 0 dPL).position =
      vadd ⟨-3, 2, 0⟩ (lissajous ((wState.pointLights.getD 0 dPL).movement)
        wState.animTime) ∧
    ((Scene.update 1 wState).pointLights.getD 1 dPL).position =
      vadd offset (vmul (lissajous ((wState.pointLights.getD 1 dPL).movement)
        wState.animTime) scale) ∧
    ((Scene.update 1 wState).spotLights.getD 0 dSL).direction =
      normalize3 (vsub origin3
        (((Scene.update 1 wState).spotLights.getD 0 dSL).position)) := by
  have h := scene_update_positions 1 wState
  exact ⟨h.1 (by simp [wState]),
    h.2.1 1 le_rfl (by simp [wState]) (by simp [wState]),
    (h.2.2 0 (by simp [wState]) (by simp [wState])).2⟩

/-- C10: after `Scene::Init` and before the first `Scene::Update`, each
spot light's direction field holds the raw triple of `getRandom(-2, 2)`
samples drawn at `Init` (stream offsets 7, 8, 9 inside the light's ten
draws) — in particular, for the concrete stream that always yields 2 it
is neither of unit length nor equal to `normalize(origin - position)`;
the invariant `direction = normalize(origin - position)` is established
by the first `Update` call and holds after every later run of updates. -/
theorem spot_direction_raw_until_first_update
    (nc np ns : ℕ) (rng : ℕ → ℝ) (h : GLHandles) (s : SceneState)
    (hfresh : s.vao = 0) (i : ℕ) (hi : i < ns) :
    ((Scene.init nc np ns rng h s).spotLights.getD i dSL).direction =
      ⟨rng (spotRngBase nc np + 10 * i + 7), rng (spotRngBase nc np + 10 * i + 8),
       rng (spotRngBase nc np + 10 * i + 9)⟩ ∧
    (∀ dts dt,
      ((runUpdates (dts ++ [dt]) (Scene.init nc np ns rng h s)).spotLights.getD i dSL).direction =
        normalize3 (vsub origin3
          (((runUpdates (dts ++ [dt]) (Scene.init nc np ns rng h s)).spotLights.getD i dSL).position))) ∧
    norm3 ((Scene.init 1 1 1 (fun _ => 2) wHandles SceneState.initial).spotLights.getD 0 dSL).direction ≠ 1 ∧
    ((Scene.init 1 1 1 (fun _ => 2) wHandles SceneState.initial).spotLights.getD 0 dSL).direction ≠
      normalize3 (vsub origin3
        ((Scene.init 1 1 1 (fun _ => 2) wHandles SceneState.initial).spotLights.getD 0 dSL).position) := by
  have hinit : ∀ (nc np ns : ℕ) (rng : ℕ → ℝ) (h : GLHandles) (s : SceneState),
      s.vao = 0 → (Scene.init nc np ns rng h s).spotLights =
        spotLightsInit np ns rng (spotRngBase nc np) ∧
      (Scene.init nc np ns rng h s).numSpotLights = ns := by
    intro nc np ns rng h s hv
    constructor <;> simp [Scene.init, hv]
  have hlen : ∀ (np ns : ℕ) (rng : ℕ → ℝ) (base : ℕ),
      (spotLightsInit np ns rng base).length = ns := by
    intro np ns rng base
    simp [spotLightsInit]
  have hraw : ∀ (np ns : ℕ) (rng : ℕ → ℝ) (base i : ℕ), i < ns →
      ((spotLightsInit np ns rng base).getD i dSL).direction =
        ⟨rng (base + 10 * i + 7), rng (base + 10 * i + 8), rng (base + 10 * i + 9)⟩ := by
    intro np ns rng base i hi
    have hb : i < (spotLightsInit np ns rng base).length := by rw [hlen]; exact hi
    rw [List.getD_eq_getElem _ _ hb]
    simp [spotLightsInit]
  have hpos : ∀ (np ns : ℕ) (rng : ℕ → ℝ) (base i : ℕ), i < ns →
      ((spotLightsInit np ns rng base).getD i dSL).position =
        vadd offset (vmul (lissajous ⟨rng (base + 10 * i), rng (base + 10 * i + 1),
          rng (base + 10 * i + 2), rng (base + 10 * i + 3)⟩ 0) scale) := by
    intro np ns rng base i hi
    have hb : i < (spotLightsInit np ns rng base).length := by rw [hlen]; exact hi
    rw [List.getD_eq_getElem _ _ hb]
    simp [spotLightsInit]
  refine ⟨?_, ?_, ?_, ?_⟩
  · rw [(hinit nc np ns rng h s hfresh).1]
    exact hraw np ns rng _ i hi
  · intro dts dt
    rw [runUpdates_append]
    apply update_spot_direction
    · have := runUpdates_facts dts (Scene.init nc np ns rng h s)
      rw [this.2.1, (hinit nc np ns rng h s hfresh).2]
      exact hi
    · have := runUpdates_facts dts (Scene.init nc np ns rng h s)
      rw [this.2.2.2.2, (hinit nc np ns rng h s hfresh).1, hlen]
      exact hi
  · rw [(hinit 1 1 1 (fun _ => 2) wHandles SceneState.initial rfl).1,
      hraw 1 1 (fun _ => 2) _ 0 (by norm_num)]
    have hn : norm3 ⟨(2 : ℝ), 2, 2⟩ = Real.sqrt 12 := by
      simp only [norm3]
      norm_num
    intro hsq
    rw [hn] at hsq
    have h12 : (12 : ℝ) = 1 := Real.sqrt_eq_one.mp hsq
    norm_num at h12
  · rw [(hinit 1 1 1 (fun _ => 2) wHandles SceneState.initial rfl).1,
      hraw 1 1 (fun _ => 2) _ 0 (by norm_num),
      hpos 1 1 (fun _ => 2) _ 0 (by norm_num)]
    intro hEq
    have hx := congrArg Vec3.x hEq
    simp [normalize3, vsub, vadd, vmul, origin3, offset, scale, lissajous,
      mul_zero, Real.sin_zero, Real.cos_zero] at hx

/-- Witness for C10: on the concrete one-spot-light scene whose random
stream always yields 2, the direction right after `Init` is the raw
sample `(2, 2, 2)`. -/
theorem spot_direction_raw_until_first_update_witness :
    SceneState.initial.vao = 0 ∧
    ((Scene.init 1 1 1 (fun _ => 2) wHandles
      SceneState.initial).spotLights.getD 0 dSL).direction = ⟨2, 2, 2⟩ := by
  refine ⟨rfl, ?_⟩
  have h := spot_direction_raw_until_first_update 1 1 1 (fun _ => 2) wHandles
    SceneState.initial rfl 0 (by norm_num)
  simpa using h.1

/-- C4: the spot-light shadow-map transform upload writes the
world-to-view matrix built from `lookAt(position, position + direction,
up)` (transposed and truncated to `mat3x4` for std140 storage) and a
perspective projection whose parameters are exactly a 45° field of view
(`radians 45 = π/4`), aspect ratio `1024/1024 = 1` (the shadow-map
resolution ratio), near plane `0.1` and far plane `1000.1`; the third
conjunct spells out the resulting projection entries. -/
theorem spot_transform_upload_parameters (s : SceneState) (light : ℕ) :
    (spotLightTransformUpload s light).1 =
      truncCols (mat4Transpose (glmLookAt (s.spotLights.getD light dSL).position
        (vadd (s.spotLights.getD light dSL).position
          (s.spotLights.getD light dSL).direction) ⟨0, 1, 0⟩)) ∧
    (spotLightTransformUpload s light).2 =
      glmPerspective (Real.pi / 4) 1 (1 / 10) (10001 / 10) ∧
    (spotLightTransformUpload s light).2 =
      Matrix.of ![![1 / Real.tan (Real.pi / 8), 0, 0, 0],
                  ![0, 1 / Real.tan (Real.pi / 8), 0, 0],
                  ![0, 0, -(5001 / 5000 : ℝ), -(10001 / 50000 : ℝ)],
                  ![0, 0, -1, 0]] := by
  have hfov : radians 45 = Real.pi / 4 := by
    simp only [radians]
    ring
  have hargs : (spotLightTransformUpload s light).2 =
      glmPerspective (Real.pi / 4) 1 (1 / 10) (10001 / 10) := by
    show glmPerspective (radians 45) ((1024 : ℝ) / 1024) (0.1 : ℝ) (1000.1 : ℝ) = _
    rw [hfov]
    norm_num
  refine ⟨rfl, hargs, ?_⟩
  rw [hargs]
  have htan : Real.pi / 4 / 2 = Real.pi / 8 := by ring
  funext i j
  fin_cases i <;> fin_cases j <;>
    simp [glmPerspective, htan] <;> norm_num

end
